import Mathlib

/-!
Shallow embedding of `sickbeard/metadata/synology.py` (class `SynologyMetadata`).

The module builds Synology VideoStation metadata sidecar files for TV
episodes.  We model:

* the POSIX path helpers the code uses (`os.path.join`, `os.path.dirname`,
  `os.path.basename`) on `String`;
* Python dictionaries with string keys as association lists with
  overwrite-on-insert semantics (`dinsert` / `dget`);
* the TVDB remote lookup as an environment function whose outcome is one of
  found / show-not-found / tvdb-error, a show record carrying the fields the
  code reads, and a per-(season, episode) record lookup returning `none` for
  the tvdb episode/season-not-found exceptions;
* the filesystem as an environment of three predicates: `isfile` (used by the
  path derivations), `isdir` (used before directory creation) and `openFails`
  (whether `open(path, w)` raises `IOError`).  `os.makedirs` failures raise
  `OSError`, which the `except IOError` handler of `write_ep_file` does not
  catch: the full model (`write_ep_file_io`, with an extra `mkdirFails`
  predicate) propagates that uncaught raise as an `osError` result, and
  `write_ep_file` is its restriction to runs in which directory creation
  succeeds (`write_ep_file_io_agrees`);
* results as explicit datatypes: `_ep_data` returns `False`, `None`, a dict,
  or raises `ShowNotFoundException` (the `raised` constructor); `write_ep_file`
  returns a boolean or propagates that exception.  Log calls and filesystem
  effects are collected in lists so that claims about logging and about the
  filesystem being left unchanged can be stated.
-/

set_option autoImplicit false

namespace Synology

/-- Whether the first character of `s` is `c`. -/
def strHeadIs (c : Char) (s : String) : Bool :=
  match s.data with
  | [] => false
  | x :: _ => x = c

/-- Whether the last character of `s` is `c`. -/
def strLastIs (c : Char) (s : String) : Bool :=
  match s.data.getLast? with
  | some x => x = c
  | none => false

/-- Split a character list at every occurrence of `c` (Python
`str.split(c)`: the empty list yields one empty chunk). -/
def splitOnChar (c : Char) : List Char → List (List Char)
  | [] => [[]]
  | x :: xs =>
      let r := splitOnChar c xs
      if x = c then [] :: r
      else
        match r with
        | [] => [[x]]
        | h :: t => (x :: h) :: t

/-- Python `s.split(sep)` for a one-character separator. -/
def strSplit (s : String) (c : Char) : List String :=
  (splitOnChar c s.data).map (fun l => ⟨l⟩)

/-- Concatenate with a separator between elements. -/
def strIntercalate (sep : String) : List String → String
  | [] => ""
  | [x] => x
  | x :: xs => x ++ sep ++ strIntercalate sep xs

/-- `os.path.join(path, b)` for POSIX, one step of the variadic join. -/
def joinOne (path b : String) : String :=
  if strHeadIs '/' b then b
  else if path = "" ∨ strLastIs '/' path then path ++ b
  else path ++ "/" ++ b

/-- `os.path.join(a, p1, ..., pn)` for POSIX. -/
def pjoin (a : String) (ps : List String) : String := ps.foldl joinOne a

/-- `os.path.basename` for POSIX: everything after the last slash. -/
def basename (p : String) : String :=
  ⟨(p.data.reverse.takeWhile (fun c => c ≠ '/')).reverse⟩

/-- `os.path.dirname` for POSIX: everything up to the last slash, with
trailing slashes stripped unless the prefix consists only of slashes. -/
def dirname (p : String) : String :=
  let l := p.data
  let tl := (l.reverse.takeWhile (fun c => c ≠ '/')).reverse
  let head := l.take (l.length - tl.length)
  if head ≠ [] ∧ head.any (fun c => c ≠ '/')
  then ⟨(head.reverse.dropWhile (fun c => c = '/')).reverse⟩
  else ⟨head⟩

/-- A value stored in the metadata dict: the code stores strings
(`data[title]`, `data[season]`, ...) and lists of strings
(`data[writer]`, `data[genre]`, ...). -/
inductive JVal where
  | jstr (s : String)
  | jlist (l : List String)
deriving DecidableEq, Repr

/-- A Python dict with string keys, as an insertion-ordered association list. -/
abbrev Dict := List (String × JVal)

/-- `d[k] = v` on a Python dict: overwrite in place if the key is present,
append otherwise. -/
def dinsert : Dict → String → JVal → Dict
  | [], k, v => [(k, v)]
  | (k1, v1) :: rest, k, v =>
      if k1 = k then (k, v) :: rest else (k1, v1) :: dinsert rest k v

/-- `d.get(k)` on a Python dict. -/
def dget : Dict → String → Option JVal
  | [], _ => none
  | (k1, v1) :: rest, k => if k1 = k then some v1 else dget rest k

/-- The key set of a dict. -/
def keys (d : Dict) : List String := d.map (fun kv => kv.1)

/-- `if x != None: d[k] = f(x)` — conditional insert used throughout
`_ep_data`. -/
def optIns (d : Dict) (k : String) (v : Option JVal) : Dict :=
  match v with
  | some x => dinsert d k x
  | none => d

/-- A `datetime.date` value: year, month, day. -/
structure PyDate where
  year : Nat
  month : Nat
  day : Nat
deriving DecidableEq, Repr

/-- `datetime.date.fromordinal(1)`, which is `date(1, 1, 1)`. -/
def date_fromordinal_1 : PyDate := ⟨1, 1, 1⟩

/-- Left-pad the decimal representation of `n` with zeros to width `k`. -/
def padZero (k : Nat) (n : Nat) : String :=
  let s := toString n
  ⟨List.replicate (k - s.length) '0'⟩ ++ s

/-- `str(d)` for a `datetime.date`: ISO format `YYYY-MM-DD`. -/
def strDate (d : PyDate) : String :=
  padZero 4 d.year ++ "-" ++ padZero 2 d.month ++ "-" ++ padZero 2 d.day

/-- The fields of a tvdb episode record that `_ep_data` reads. -/
structure TvdbEp where
  episodename : Option String
  firstaired : Option String
  writer : Option String
  director : Option String
deriving DecidableEq, Repr

/-- The fields of a tvdb show record that `_ep_data` reads, together with the
per-(season, episode) record lookup: `eps s e = none` models the
`tvdb_episodenotfound` / `tvdb_seasonnotfound` exceptions of
`myShow[season][episode]`. -/
structure TvdbShow where
  seriesname : Option String
  actors : Option String
  genre : Option String
  eps : Int → Int → Option TvdbEp

/-- Outcome of `t[ep_obj.show.tvdbid]`: the show record, or one of the two
exceptions the code catches (`tvdb_shownotfound`, `tvdb_error`), each
carrying the exception text `str(e)`. -/
inductive ShowLookup where
  | found (s : TvdbShow)
  | shownotfound (msg : String)
  | tvdbError (msg : String)

/-- The remote TVDB service: a lookup keyed by show id and the optional
language override the code computes from `ep_obj.show.lang`. -/
structure TvdbEnv where
  lookup : Nat → Option String → ShowLookup

/-- The language parameter actually passed: `ltvdb_api_parms[language]` is
set only when `tvdb_lang` is truthy and not equal to the string en. -/
def effLang (lang : String) : Option String :=
  if lang ≠ "" ∧ lang ≠ "en" then some lang else none

/-- The per-episode fields of a `TVEpisode` object that this module reads. -/
structure EpData where
  season : Int
  episode : Int
  name : String
  description : Option String
  airdate : PyDate
deriving DecidableEq, Repr

/-- A `TVEpisode` object, restricted to the fields this module reads:
`ep_obj` itself (`main`), `ep_obj.relatedEps`, `ep_obj.location`,
`ep_obj.show.lang` and `ep_obj.show.tvdbid`. -/
structure TVEpisode where
  main : EpData
  relatedEps : List EpData
  location : String
  showLang : String
  showTvdbid : Nat
deriving DecidableEq, Repr

/-- Log levels of `sickbeard.logger` used in this module: the default
(message), `DEBUG` and `ERROR`. -/
inductive LogLevel where
  | message
  | debug
  | error
deriving DecidableEq, Repr

/-- One `logger.log` call: text and level. -/
structure LogEntry where
  msg : String
  level : LogLevel
deriving DecidableEq, Repr

/-- Result of `_ep_data`: the `ShowNotFoundException` it raises on
`tvdb_shownotfound`, the `False` it returns on `tvdb_error`, the `None` it
returns on missing episode records or missing required fields, or the
assembled dict. -/
inductive EpDataResult where
  | raised (e : String)
  | retFalse
  | retNone
  | retData (d : Dict)
deriving DecidableEq, Repr

/-- The `firstaired` value after the season-0 substitution: when the record
has no air date and the PRIMARY episode (`ep_obj`, not the related episode
being processed) is a special, `str(datetime.date.fromordinal(1))` is
substituted. -/
def subFA (epObjSeason : Int) (myEp : TvdbEp) : Option String :=
  if myEp.firstaired = none ∧ epObjSeason = 0
  then some (strDate date_fromordinal_1)
  else myEp.firstaired

/-- The body of the `for curEpToWrite in eps_to_write` loop after the
required-field check: the sequence of dict writes into the shared `data`
dict, in source order. -/
def stepDict (myShow : TvdbShow) (myEp : TvdbEp) (cur : EpData) (data : Dict) : Dict :=
  let d1 := optIns data "title" (myShow.seriesname.map JVal.jstr)
  let d2 := dinsert d1 "tagline" (JVal.jstr cur.name)
  let d3 := dinsert d2 "season" (JVal.jstr (toString cur.season))
  let d4 := dinsert d3 "episode" (JVal.jstr (toString cur.episode))
  let d5 := optIns d4 "summary" (cur.description.map JVal.jstr)
  let d6 := optIns d5 "original_available"
      (if cur.airdate ≠ date_fromordinal_1
       then some (JVal.jstr (strDate cur.airdate)) else none)
  let d7 := optIns d6 "writer" (myEp.writer.map (fun w => JVal.jlist (strSplit w '|')))
  let d8 := optIns d7 "director" (myEp.director.map (fun w => JVal.jlist [w]))
  let d9 := optIns d8 "actor" (myShow.actors.map (fun a => JVal.jlist (strSplit a '|')))
  optIns d9 "genre" (myShow.genre.map (fun g => JVal.jlist (strSplit g '|')))

/-- The log emitted when `myShow[season][episode]` raises. -/
def epNotFoundLog (cur : EpData) : LogEntry :=
  ⟨"Unable to find episode " ++ toString cur.season ++ "x" ++ toString cur.episode ++
    " on tvdb... has it been removed? Should I delete from db?", LogLevel.message⟩

/-- The `for curEpToWrite in eps_to_write` loop of `_ep_data`, threading the
shared `data` dict: `none` models the `return None` exits (episode record not
found, or a required field missing after the season-0 substitution). -/
def epLoop (myShow : TvdbShow) (epObjSeason : Int) :
    List EpData → Dict → Option Dict × List LogEntry
  | [], data => (some data, [])
  | cur :: rest, data =>
      match myShow.eps cur.season cur.episode with
      | none => (none, [epNotFoundLog cur])
      | some myEp =>
          if myEp.episodename = none ∨ subFA epObjSeason myEp = none
          then (none, [])
          else epLoop myShow epObjSeason rest (stepDict myShow myEp cur data)

/-- The error log of the `tvdb_error` handler in `_ep_data`. -/
def tvdbErrLog (m : String) : LogEntry :=
  ⟨"Unable to connect to TVDB while creating meta files - skipping - " ++ m,
    LogLevel.error⟩

/-- `SynologyMetadata._ep_data`: look the show up, then run the episode loop
over `[ep_obj] + ep_obj.relatedEps` starting from the empty dict. -/
def ep_data (env : TvdbEnv) (ep : TVEpisode) : EpDataResult × List LogEntry :=
  match env.lookup ep.showTvdbid (effLang ep.showLang) with
  | ShowLookup.shownotfound m => (EpDataResult.raised m, [])
  | ShowLookup.tvdbError m => (EpDataResult.retFalse, [tvdbErrLog m])
  | ShowLookup.found myShow =>
      match epLoop myShow ep.main.season (ep.main :: ep.relatedEps) [] with
      | (none, logs) => (EpDataResult.retNone, logs)
      | (some d, logs) => (EpDataResult.retData d, logs)

/-- The filesystem environment: `os.path.isfile`, `os.path.isdir`, and
whether `open(path, w)` raises `IOError`. -/
structure FS where
  isfile : String → Bool
  isdir : String → Bool
  openFails : String → Bool

/-- `SynologyMetadata.get_episode_thumb_path`: the `@eaDir` screenshot path
when the episode location is a file, `None` otherwise. -/
def get_episode_thumb_path (fs : FS) (ep : TVEpisode) : Option String :=
  if fs.isfile ep.location then
    some (pjoin (dirname ep.location)
      ["@eaDir", basename ep.location, "SYNOVIDEO_VIDEO_SCREENSHOT.jpg"])
  else none

/-- `SynologyMetadata.get_episode_file_path`: the `@eaDir` metadata path when
the episode location is a file, the empty string (plus a debug log) otherwise. -/
def get_episode_file_path (fs : FS) (ep : TVEpisode) : String × List LogEntry :=
  if fs.isfile ep.location then
    (pjoin (dirname ep.location)
      ["@eaDir", basename ep.location, "SYNOVIDEO_TV_EPISODE"], [])
  else
    ("", [⟨"Episode location doesn\x27t exist: " ++ ep.location, LogLevel.debug⟩])

/-- A filesystem effect performed by `write_ep_file`. -/
inductive Eff where
  | mkdir (p : String)
  | chmod (p : String)
  | write (p : String) (content : String)
deriving DecidableEq, Repr

/-- Result of `write_ep_file`: a boolean, or the `ShowNotFoundException`
propagating out of `_ep_data`. -/
inductive WResult where
  | raised (e : String)
  | ret (b : Bool)
deriving DecidableEq, Repr

/-- JSON escaping of one character inside a string literal
(`json.dump` escapes at least the backslash and the double quote). -/
def escChar (c : Char) : List Char :=
  if c = '\\' then ['\\', '\\']
  else if c = '"' then ['\\', '"']
  else [c]

/-- A JSON string literal. -/
def jsonStr (s : String) : String :=
  "\"" ++ String.mk (s.data.map escChar).flatten ++ "\""

/-- A JSON value as serialized by `json.dump` with default separators. -/
def jsonVal : JVal → String
  | JVal.jstr s => jsonStr s
  | JVal.jlist l => "[" ++ strIntercalate ", " (l.map jsonStr) ++ "]"

/-- `json.dump(data, f)` with default separators. -/
def jsonDump (d : Dict) : String :=
  "\x7b" ++
    strIntercalate ", " (d.map (fun kv => jsonStr kv.1 ++ ": " ++ jsonVal kv.2)) ++
  "\x7d"

/-- The debug log emitted just before a missing metadata directory is created. -/
def mkdirLog (dir : String) : LogEntry :=
  ⟨"Metadata dir didn\x27t exist, creating it at " ++ dir, LogLevel.debug⟩

/-- The log emitted just before the metadata file is opened for writing. -/
def writingLog (p : String) : LogEntry :=
  ⟨"Writing episode metadata file to " ++ p, LogLevel.message⟩

/-- The error log of the `except IOError` handler of `write_ep_file`. -/
def ioErrLog (p : String) : LogEntry :=
  ⟨"Unable to write file to " ++ p ++
    " - are you sure the folder is writable? ", LogLevel.error⟩

/-- `if not isdir(dir): makedirs(dir); chmodAsParent(dir)` — the effects and
logs of one directory-creation step of `write_ep_file`, in the restricted
model where `os.makedirs` succeeds; `doMkdirFull` below is the full model in
which it may raise an uncaught `OSError`. -/
def doMkdir (fs : FS) (dir : String) : List Eff × List LogEntry :=
  if fs.isdir dir then ([], [])
  else ([Eff.mkdir dir, Eff.chmod dir], [mkdirLog dir])

/-- The part of `write_ep_file` after the falsy-data early return: derive the
metadata path, create the two directory levels, then open and write the JSON
file, returning `False` (with the error logged) when the open raises
`IOError`. -/
def writeStage (fs : FS) (ep : TVEpisode) (data : Dict) (logs0 : List LogEntry) :
    WResult × List Eff × List LogEntry :=
  let pr := get_episode_file_path fs ep
  let nfoPath := pr.1
  let nfoDir := dirname nfoPath
  let metaDir := dirname nfoDir
  let m1 := doMkdir fs metaDir
  let m2 := doMkdir fs nfoDir
  if fs.openFails nfoPath then
    (WResult.ret false, m1.1 ++ m2.1,
      logs0 ++ pr.2 ++ m1.2 ++ m2.2 ++ [writingLog nfoPath, ioErrLog nfoPath])
  else
    (WResult.ret true,
      m1.1 ++ m2.1 ++ [Eff.write nfoPath (jsonDump data), Eff.chmod nfoPath],
      logs0 ++ pr.2 ++ m1.2 ++ m2.2 ++ [writingLog nfoPath])

/-- `SynologyMetadata.write_ep_file`: generate the data, return `False` when
it is falsy (`False`, `None` or an empty dict), otherwise derive the path and
write the file; a `ShowNotFoundException` from `_ep_data` propagates. -/
def write_ep_file (env : TvdbEnv) (fs : FS) (ep : TVEpisode) :
    WResult × List Eff × List LogEntry :=
  match ep_data env ep with
  | (EpDataResult.raised e, logs) => (WResult.raised e, [], logs)
  | (EpDataResult.retFalse, logs) => (WResult.ret false, [], logs)
  | (EpDataResult.retNone, logs) => (WResult.ret false, [], logs)
  | (EpDataResult.retData data, logs) =>
      if data.isEmpty then (WResult.ret false, [], logs)
      else writeStage fs ep data logs

/-- Result of the full-fidelity model of `write_ep_file`: a boolean, the
`ShowNotFoundException` propagating out of `_ep_data`, or the uncaught
`OSError` of a failed `os.makedirs` (in Python 2, `except IOError` does not
catch `OSError`), tagged with the directory whose creation failed. -/
inductive WIOResult where
  | raised (e : String)
  | osError (dir : String)
  | ret (b : Bool)
deriving DecidableEq, Repr

/-- One directory-creation step in the full model: `os.makedirs` may fail,
per the extra `mkdirFails` predicate, and its `OSError` escapes the
`except IOError` handler; the debug log has already been emitted when it
raises, and no effect has been performed. -/
def doMkdirFull (fs : FS) (mkdirFails : String → Bool) (dir : String) :
    Except (List LogEntry) (List Eff × List LogEntry) :=
  if fs.isdir dir then Except.ok ([], [])
  else if mkdirFails dir then Except.error [mkdirLog dir]
  else Except.ok ([Eff.mkdir dir, Eff.chmod dir], [mkdirLog dir])

/-- The write stage in the full model: as `writeStage`, but a failing
`os.makedirs` raises an uncaught `OSError` (so no `ioErrLog` is emitted on
that path, the `except IOError` handler not being reached). -/
def writeStageFull (fs : FS) (mkdirFails : String → Bool) (ep : TVEpisode)
    (data : Dict) (logs0 : List LogEntry) :
    WIOResult × List Eff × List LogEntry :=
  let pr := get_episode_file_path fs ep
  let nfoPath := pr.1
  let nfoDir := dirname nfoPath
  let metaDir := dirname nfoDir
  match doMkdirFull fs mkdirFails metaDir with
  | Except.error l1 => (WIOResult.osError metaDir, [], logs0 ++ pr.2 ++ l1)
  | Except.ok m1 =>
      match doMkdirFull fs mkdirFails nfoDir with
      | Except.error l2 =>
          (WIOResult.osError nfoDir, m1.1, logs0 ++ pr.2 ++ m1.2 ++ l2)
      | Except.ok m2 =>
          if fs.openFails nfoPath then
            (WIOResult.ret false, m1.1 ++ m2.1,
              logs0 ++ pr.2 ++ m1.2 ++ m2.2 ++ [writingLog nfoPath, ioErrLog nfoPath])
          else
            (WIOResult.ret true,
              m1.1 ++ m2.1 ++ [Eff.write nfoPath (jsonDump data), Eff.chmod nfoPath],
              logs0 ++ pr.2 ++ m1.2 ++ m2.2 ++ [writingLog nfoPath])

/-- `SynologyMetadata.write_ep_file` in the full model: as `write_ep_file`,
with `os.makedirs` failures propagating as uncaught `OSError`.
`write_ep_file` is its restriction to runs in which directory creation
succeeds (`write_ep_file_io_agrees`). -/
def write_ep_file_io (env : TvdbEnv) (fs : FS) (mkdirFails : String → Bool)
    (ep : TVEpisode) : WIOResult × List Eff × List LogEntry :=
  match ep_data env ep with
  | (EpDataResult.raised e, logs) => (WIOResult.raised e, [], logs)
  | (EpDataResult.retFalse, logs) => (WIOResult.ret false, [], logs)
  | (EpDataResult.retNone, logs) => (WIOResult.ret false, [], logs)
  | (EpDataResult.retData data, logs) =>
      if data.isEmpty then (WIOResult.ret false, [], logs)
      else writeStageFull fs mkdirFails ep data logs

/-- Inclusion of restricted-model results into full-model results. -/
def wrToFull : WResult → WIOResult
  | WResult.raised e => WIOResult.raised e
  | WResult.ret b => WIOResult.ret b

/-- The `mkdirFails` predicate of a run in which directory creation succeeds. -/
def noMkdirFail : String → Bool := fun _ => false

/-- The `mkdirFails` predicate of a run in which every `os.makedirs` fails. -/
def allMkdirFail : String → Bool := fun _ => true

/-- The ten keys `_ep_data` can ever write. -/
def allKeys : List String :=
  ["title", "tagline", "season", "episode", "summary",
   "original_available", "writer", "director", "actor", "genre"]

/-! Concrete fixtures used by the witnesses and counterexamples. -/

/-- tvdb record for episode 1x1 of the test show. -/
def epRec1 : TvdbEp :=
  ⟨some "Pilot", some "2005-03-15", some "Alice|Bob", some "Carol"⟩

/-- tvdb record for episode 1x2 of the test show: no writer, no director. -/
def epRec2 : TvdbEp :=
  ⟨some "Part 2 title", some "2005-03-22", none, none⟩

/-- tvdb record with no episode name (required field missing). -/
def epRecNoName : TvdbEp :=
  ⟨none, some "2005-03-29", none, none⟩

/-- The test show record: episodes 1x1 and 1x2 exist, everything else raises. -/
def show1 : TvdbShow :=
  ⟨some "The Show", some "Dan|Eve", some "Drama|Comedy",
    fun s e =>
      if s = 1 ∧ e = 1 then some epRec1
      else if s = 1 ∧ e = 2 then some epRec2
      else if s = 1 ∧ e = 3 then some epRecNoName
      else none⟩

/-- Local fields of episode 1x1: has a description. -/
def ed1 : EpData := ⟨1, 1, "Pilot", some "first summary", ⟨2005, 3, 15⟩⟩

/-- Local fields of episode 1x2: no description. -/
def ed2 : EpData := ⟨1, 2, "Part 2", none, ⟨2005, 3, 22⟩⟩

/-- Local fields of episode 1x3. -/
def ed3 : EpData := ⟨1, 3, "Part 3", none, ⟨2005, 3, 29⟩⟩

/-- A single-episode `TVEpisode` object at a POSIX location. -/
def tv1 : TVEpisode := ⟨ed1, [], "/tv/Season 1/show - 1x01.mkv", "en", 42⟩

/-- A multi-episode `TVEpisode` object: 1x1 with 1x2 as related episode. -/
def tvMulti : TVEpisode := ⟨ed1, [ed2], "/tv/Season 1/show - 1x01.mkv", "en", 42⟩

/-- A `TVEpisode` whose (only) episode record lacks the episode name. -/
def tvNoName : TVEpisode := ⟨ed3, [], "/tv/Season 1/show - 1x03.mkv", "en", 42⟩

/-- Environment in which the show lookup succeeds. -/
def envFound : TvdbEnv := ⟨fun _ _ => ShowLookup.found show1⟩

/-- Environment in which the show lookup raises `tvdb_shownotfound`. -/
def envNotFound : TvdbEnv := ⟨fun _ _ => ShowLookup.shownotfound "Show not found"⟩

/-- Environment in which the show lookup raises `tvdb_error`. -/
def envErr : TvdbEnv := ⟨fun _ _ => ShowLookup.tvdbError "connection failed"⟩

/-- Filesystem where every location is a file, no directory exists yet and
writes succeed. -/
def fsPlain : FS := ⟨fun _ => true, fun _ => false, fun _ => false⟩

/-- Filesystem where no location is a file. -/
def fsNoFile : FS := ⟨fun _ => false, fun _ => false, fun _ => false⟩

/-- Filesystem where opening the metadata file for writing raises `IOError`. -/
def fsOpenFail : FS := ⟨fun _ => true, fun _ => false, fun _ => true⟩

/-- The dict `_ep_data` builds for `tvMulti` in `envFound`: the second
iteration overwrote `tagline`, `season`, `episode` and `original_available`,
while `summary`, `writer` and `director` kept the values of the first
iteration because episode 1x2 has no description, writer or director. -/
def dictMulti : Dict :=
  [("title", JVal.jstr "The Show"),
   ("tagline", JVal.jstr "Part 2"),
   ("season", JVal.jstr "1"),
   ("episode", JVal.jstr "2"),
   ("summary", JVal.jstr "first summary"),
   ("original_available", JVal.jstr "2005-03-22"),
   ("writer", JVal.jlist ["Alice", "Bob"]),
   ("director", JVal.jlist ["Carol"]),
   ("actor", JVal.jlist ["Dan", "Eve"]),
   ("genre", JVal.jlist ["Drama", "Comedy"])]

/-- The dict `_ep_data` builds for `tv1` (episode 1x1 alone) in `envFound`. -/
def dictSingle : Dict :=
  [("title", JVal.jstr "The Show"),
   ("tagline", JVal.jstr "Pilot"),
   ("season", JVal.jstr "1"),
   ("episode", JVal.jstr "1"),
   ("summary", JVal.jstr "first summary"),
   ("original_available", JVal.jstr "2005-03-15"),
   ("writer", JVal.jlist ["Alice", "Bob"]),
   ("director", JVal.jlist ["Carol"]),
   ("actor", JVal.jlist ["Dan", "Eve"]),
   ("genre", JVal.jlist ["Drama", "Comedy"])]

/-- tvdb record of a special (season 0) with no air date. -/
def epRecNoAir : TvdbEp := ⟨some "Special", none, none, none⟩

/-- Local fields of the special episode 0x1. -/
def edSp : EpData := ⟨0, 1, "Special", none, ⟨1, 1, 1⟩⟩

/-- Show record whose only episode is the special 0x1. -/
def showSp : TvdbShow :=
  ⟨some "The Show", none, none,
    fun s e => if s = 0 ∧ e = 1 then some epRecNoAir else none⟩

/-- Local fields of an episode 2x1 that the test show does not know. -/
def edNF : EpData := ⟨2, 1, "Ghost", none, ⟨1, 1, 1⟩⟩

/-- A `TVEpisode` whose record is missing from the remote show database
(episode-level `tvdb_episodenotfound`). -/
def tvEpNotFound : TVEpisode := ⟨edNF, [], "/tv/Season 2/show - 2x01.mkv", "en", 42⟩

end Synology

namespace Synology

example : dirname "/tv/Season 1/show - 1x01.mkv" = "/tv/Season 1" := by decide
example : basename "/tv/Season 1/show - 1x01.mkv" = "show - 1x01.mkv" := by decide
example : strDate date_fromordinal_1 = "0001-01-01" := by decide
example :
    (get_episode_file_path fsPlain tv1).1 =
      "/tv/Season 1/@eaDir/show - 1x01.mkv/SYNOVIDEO_TV_EPISODE" := by decide
example :
    get_episode_thumb_path fsPlain tv1 =
      some "/tv/Season 1/@eaDir/show - 1x01.mkv/SYNOVIDEO_VIDEO_SCREENSHOT.jpg" := by
  decide
example : ep_data envFound tvMulti = (EpDataResult.retData dictMulti, []) := by decide
example : (ep_data envNotFound tv1).1 = EpDataResult.raised "Show not found" := by decide
example : (ep_data envErr tv1).1 = EpDataResult.retFalse := by decide
example : (ep_data envFound tvNoName).1 = EpDataResult.retNone := by decide
example : (write_ep_file envFound fsPlain tvMulti).1 = WResult.ret true := by decide

/-! Helper lemmas about the dict operations. -/

theorem dget_dinsert_same (k : String) (d : Dict) (v : JVal) :
    dget (dinsert d k v) k = some v := by
  induction d with
  | nil => simp [dinsert, dget]
  | cons kv rest ih =>
      obtain ⟨k1, v1⟩ := kv
      by_cases h : k1 = k <;> simp [dinsert, dget, h, ih]

theorem dget_dinsert_ne (k k2 : String) (h : k2 ≠ k) (d : Dict) (v : JVal) :
    dget (dinsert d k v) k2 = dget d k2 := by
  have hne : k ≠ k2 := Ne.symm h
  induction d with
  | nil => simp [dinsert, dget, hne]
  | cons kv rest ih =>
      obtain ⟨k1, v1⟩ := kv
      by_cases h1 : k1 = k
      · subst h1
        simp [dinsert, dget, hne]
      · by_cases h2 : k1 = k2
        · subst h2
          simp [dinsert, dget, h1]
        · simp [dinsert, dget, h1, h2, ih]

theorem dget_optIns_ne (k k2 : String) (h : k2 ≠ k) (d : Dict) (v : Option JVal) :
    dget (optIns d k v) k2 = dget d k2 := by
  cases v with
  | none => simp [optIns]
  | some x => simp [optIns, dget_dinsert_ne k k2 h]

theorem dget_optIns_some (k : String) (d : Dict) (x : JVal) :
    dget (optIns d k (some x)) k = some x := by
  simp [optIns, dget_dinsert_same]

theorem mem_keys_dinsert (d : Dict) (k : String) (v : JVal) :
    ∀ x ∈ keys (dinsert d k v), x = k ∨ x ∈ keys d := by
  induction d with
  | nil => intro x hx; simp [dinsert, keys] at hx; exact Or.inl hx
  | cons kv rest ih =>
      obtain ⟨k1, v1⟩ := kv
      intro x hx
      by_cases h1 : k1 = k
      · simp [dinsert, keys, h1] at hx
        rcases hx with rfl | hx
        · exact Or.inl rfl
        · exact Or.inr (by simp [keys, hx])
      · simp [dinsert, keys, h1] at hx
        rcases hx with rfl | hx
        · exact Or.inr (by simp [keys])
        · rcases ih x (by simp [keys, hx]) with h2 | h2
          · exact Or.inl h2
          · exact Or.inr (by simp [keys] at h2 ⊢; exact Or.inr h2)

theorem mem_keys_optIns (d : Dict) (k : String) (v : Option JVal) :
    ∀ x ∈ keys (optIns d k v), x = k ∨ x ∈ keys d := by
  cases v with
  | none => intro x hx; exact Or.inr hx
  | some y => exact mem_keys_dinsert d k y

/-! Helper lemmas about the episode loop. -/

theorem mem_keys_stepDict (myShow : TvdbShow) (myEp : TvdbEp) (cur : EpData)
    (data : Dict) :
    ∀ x ∈ keys (stepDict myShow myEp cur data), x ∈ allKeys ∨ x ∈ keys data := by
  intro x hx
  simp only [stepDict] at hx
  rcases mem_keys_optIns _ _ _ x hx with rfl | hx
  · exact Or.inl (by decide)
  rcases mem_keys_optIns _ _ _ x hx with rfl | hx
  · exact Or.inl (by decide)
  rcases mem_keys_optIns _ _ _ x hx with rfl | hx
  · exact Or.inl (by decide)
  rcases mem_keys_optIns _ _ _ x hx with rfl | hx
  · exact Or.inl (by decide)
  rcases mem_keys_optIns _ _ _ x hx with rfl | hx
  · exact Or.inl (by decide)
  rcases mem_keys_optIns _ _ _ x hx with rfl | hx
  · exact Or.inl (by decide)
  rcases mem_keys_dinsert _ _ _ x hx with rfl | hx
  · exact Or.inl (by decide)
  rcases mem_keys_dinsert _ _ _ x hx with rfl | hx
  · exact Or.inl (by decide)
  rcases mem_keys_dinsert _ _ _ x hx with rfl | hx
  · exact Or.inl (by decide)
  rcases mem_keys_optIns _ _ _ x hx with rfl | hx
  · exact Or.inl (by decide)
  exact Or.inr hx

theorem epLoop_keys (myShow : TvdbShow) (s : Int) :
    ∀ (eps : List EpData) (data d : Dict) (logs : List LogEntry),
      epLoop myShow s eps data = (some d, logs) →
      ∀ x ∈ keys d, x ∈ allKeys ∨ x ∈ keys data := by
  intro eps
  induction eps with
  | nil =>
      intro data d logs h x hx
      simp only [epLoop, Prod.mk.injEq, Option.some.injEq] at h
      exact Or.inr (h.1 ▸ hx)
  | cons cur rest ih =>
      intro data d logs h x hx
      cases hE : myShow.eps cur.season cur.episode with
      | none => simp only [epLoop, hE] at h; simp at h
      | some myEp =>
          simp only [epLoop, hE] at h
          by_cases hc : myEp.episodename = none ∨ subFA s myEp = none
          · rw [if_pos hc] at h; simp at h
          · rw [if_neg hc] at h
            rcases ih (stepDict myShow myEp cur data) d logs h x hx with h1 | h2
            · exact Or.inl h1
            · exact mem_keys_stepDict myShow myEp cur data x h2

theorem epLoop_bad_none (myShow : TvdbShow) (s : Int) :
    ∀ (eps : List EpData) (data : Dict) (e : EpData), e ∈ eps →
      (∀ myEp, myShow.eps e.season e.episode = some myEp →
        myEp.episodename = none ∨ subFA s myEp = none) →
      (epLoop myShow s eps data).1 = none := by
  intro eps
  induction eps with
  | nil => intro data e he; simp at he
  | cons cur rest ih =>
      intro data e he hbad
      rcases List.mem_cons.mp he with rfl | hmem
      · cases hE : myShow.eps e.season e.episode with
        | none => simp [epLoop, hE]
        | some myEp =>
            simp only [epLoop, hE]
            rw [if_pos (hbad myEp hE)]
      · cases hE : myShow.eps cur.season cur.episode with
        | none => simp [epLoop, hE]
        | some myEp =>
            simp only [epLoop, hE]
            by_cases hc : myEp.episodename = none ∨ subFA s myEp = none
            · rw [if_pos hc]
            · rw [if_neg hc]; exact ih _ e hmem hbad

theorem stepDict_last_fields (myShow : TvdbShow) (myEp : TvdbEp) (cur : EpData)
    (data : Dict) :
    dget (stepDict myShow myEp cur data) "tagline" = some (JVal.jstr cur.name) ∧
    dget (stepDict myShow myEp cur data) "season" =
      some (JVal.jstr (toString cur.season)) ∧
    dget (stepDict myShow myEp cur data) "episode" =
      some (JVal.jstr (toString cur.episode)) ∧
    (∀ t, cur.description = some t →
      dget (stepDict myShow myEp cur data) "summary" = some (JVal.jstr t)) := by
  refine ⟨?_, ?_, ?_, ?_⟩
  · simp only [stepDict]
    rw [dget_optIns_ne "genre" "tagline" (by decide),
      dget_optIns_ne "actor" "tagline" (by decide),
      dget_optIns_ne "director" "tagline" (by decide),
      dget_optIns_ne "writer" "tagline" (by decide),
      dget_optIns_ne "original_available" "tagline" (by decide),
      dget_optIns_ne "summary" "tagline" (by decide),
      dget_dinsert_ne "episode" "tagline" (by decide),
      dget_dinsert_ne "season" "tagline" (by decide),
      dget_dinsert_same]
  · simp only [stepDict]
    rw [dget_optIns_ne "genre" "season" (by decide),
      dget_optIns_ne "actor" "season" (by decide),
      dget_optIns_ne "director" "season" (by decide),
      dget_optIns_ne "writer" "season" (by decide),
      dget_optIns_ne "original_available" "season" (by decide),
      dget_optIns_ne "summary" "season" (by decide),
      dget_dinsert_ne "episode" "season" (by decide),
      dget_dinsert_same]
  · simp only [stepDict]
    rw [dget_optIns_ne "genre" "episode" (by decide),
      dget_optIns_ne "actor" "episode" (by decide),
      dget_optIns_ne "director" "episode" (by decide),
      dget_optIns_ne "writer" "episode" (by decide),
      dget_optIns_ne "original_available" "episode" (by decide),
      dget_optIns_ne "summary" "episode" (by decide),
      dget_dinsert_same]
  · intro t ht
    simp only [stepDict]
    rw [dget_optIns_ne "genre" "summary" (by decide),
      dget_optIns_ne "actor" "summary" (by decide),
      dget_optIns_ne "director" "summary" (by decide),
      dget_optIns_ne "writer" "summary" (by decide),
      dget_optIns_ne "original_available" "summary" (by decide),
      ht]
    exact dget_optIns_some "summary" _ _

theorem epLoop_append_last (myShow : TvdbShow) (s : Int) :
    ∀ (pre : List EpData) (lastEp : EpData) (data d : Dict) (logs : List LogEntry),
      epLoop myShow s (pre ++ [lastEp]) data = (some d, logs) →
      dget d "tagline" = some (JVal.jstr lastEp.name) ∧
      dget d "season" = some (JVal.jstr (toString lastEp.season)) ∧
      dget d "episode" = some (JVal.jstr (toString lastEp.episode)) ∧
      (∀ t, lastEp.description = some t →
        dget d "summary" = some (JVal.jstr t)) := by
  intro pre
  induction pre with
  | nil =>
      intro lastEp data d logs h
      simp only [List.nil_append] at h
      cases hE : myShow.eps lastEp.season lastEp.episode with
      | none => simp only [epLoop, hE] at h; simp at h
      | some myEp =>
          simp only [epLoop, hE] at h
          by_cases hc : myEp.episodename = none ∨ subFA s myEp = none
          · rw [if_pos hc] at h; simp at h
          · rw [if_neg hc] at h
            simp only [epLoop, Prod.mk.injEq, Option.some.injEq] at h
            rw [← h.1]
            exact stepDict_last_fields myShow myEp lastEp data
  | cons cur rest ih =>
      intro lastEp data d logs h
      simp only [List.cons_append] at h
      cases hE : myShow.eps cur.season cur.episode with
      | none => simp only [epLoop, hE] at h; simp at h
      | some myEp =>
          simp only [epLoop, hE] at h
          by_cases hc : myEp.episodename = none ∨ subFA s myEp = none
          · rw [if_pos hc] at h; simp at h
          · rw [if_neg hc] at h
            exact ih lastEp (stepDict myShow myEp cur data) d logs h

/-! Helper lemmas about the write stage. -/

theorem doMkdir_no_write (fs : FS) (dir : String) (p c : String) :
    Eff.write p c ∉ (doMkdir fs dir).1 := by
  unfold doMkdir
  split <;> simp

theorem writeStage_fst_ne_raised (fs : FS) (ep : TVEpisode) (data : Dict)
    (logs0 : List LogEntry) (e : String) :
    (writeStage fs ep data logs0).1 ≠ WResult.raised e := by
  simp only [writeStage]
  split <;> simp

theorem writeStage_true_write_mem (fs : FS) (ep : TVEpisode) (data : Dict)
    (logs0 : List LogEntry)
    (h : (writeStage fs ep data logs0).1 = WResult.ret true) :
    Eff.write (get_episode_file_path fs ep).1 (jsonDump data) ∈
      (writeStage fs ep data logs0).2.1 := by
  simp only [writeStage] at h ⊢
  by_cases ho : fs.openFails (get_episode_file_path fs ep).1 = true
  · rw [if_pos ho] at h; simp at h
  · rw [if_neg ho] at h ⊢
    simp

theorem writeStage_openFails (fs : FS) (ep : TVEpisode) (data : Dict)
    (logs0 : List LogEntry)
    (h : fs.openFails (get_episode_file_path fs ep).1 = true) :
    (writeStage fs ep data logs0).1 = WResult.ret false ∧
    ioErrLog (get_episode_file_path fs ep).1 ∈ (writeStage fs ep data logs0).2.2 ∧
    (∀ p c, Eff.write p c ∉ (writeStage fs ep data logs0).2.1) := by
  simp only [writeStage, if_pos h]
  refine ⟨by trivial, by simp, ?_⟩
  intro p c
  simp only [List.mem_append]
  rintro (h1 | h2)
  · exact doMkdir_no_write fs _ p c h1
  · exact doMkdir_no_write fs _ p c h2

/-! Helper lemmas about the full (OSError-aware) write model. -/

theorem doMkdirFull_ok (fs : FS) (mkF : String → Bool) (dir : String)
    (h : mkF dir = false) :
    doMkdirFull fs mkF dir = Except.ok (doMkdir fs dir) := by
  unfold doMkdirFull doMkdir
  by_cases hd : fs.isdir dir = true
  · simp [hd]
  · simp [hd, h]

theorem doMkdirFull_error_elim (fs : FS) (mkF : String → Bool) (dir : String)
    (l : List LogEntry) (h : doMkdirFull fs mkF dir = Except.error l) :
    fs.isdir dir = false ∧ mkF dir = true := by
  unfold doMkdirFull at h
  by_cases hd : fs.isdir dir = true
  · rw [if_pos hd] at h; simp at h
  · rw [if_neg hd] at h
    by_cases hm : mkF dir = true
    · exact ⟨by simpa using hd, hm⟩
    · rw [if_neg hm] at h; simp at h

theorem writeStageFull_ne_raised (fs : FS) (mkF : String → Bool) (ep : TVEpisode)
    (data : Dict) (logs0 : List LogEntry) (e : String) :
    (writeStageFull fs mkF ep data logs0).1 ≠ WIOResult.raised e := by
  simp only [writeStageFull]
  cases h1 : doMkdirFull fs mkF (dirname (dirname (get_episode_file_path fs ep).1)) with
  | error l1 => simp
  | ok m1 =>
      cases h2 : doMkdirFull fs mkF (dirname (get_episode_file_path fs ep).1) with
      | error l2 => simp
      | ok m2 =>
          by_cases ho : fs.openFails (get_episode_file_path fs ep).1 = true <;>
            simp [ho]

theorem writeStageFull_openFails_false (fs : FS) (mkF : String → Bool)
    (ep : TVEpisode) (data : Dict) (logs0 : List LogEntry)
    (h : fs.openFails (get_episode_file_path fs ep).1 = true)
    (h1 : mkF (dirname (dirname (get_episode_file_path fs ep).1)) = false)
    (h2 : mkF (dirname (get_episode_file_path fs ep).1) = false) :
    (writeStageFull fs mkF ep data logs0).1 = WIOResult.ret false := by
  simp [writeStageFull, doMkdirFull_ok fs mkF _ h1, doMkdirFull_ok fs mkF _ h2, h]

theorem writeStageFull_osError_elim (fs : FS) (mkF : String → Bool)
    (ep : TVEpisode) (data : Dict) (logs0 : List LogEntry) (dir : String)
    (h : (writeStageFull fs mkF ep data logs0).1 = WIOResult.osError dir) :
    fs.isdir dir = false ∧ mkF dir = true := by
  simp only [writeStageFull] at h
  cases h1 : doMkdirFull fs mkF (dirname (dirname (get_episode_file_path fs ep).1)) with
  | error l1 =>
      rw [h1] at h
      simp at h
      subst h
      exact doMkdirFull_error_elim fs mkF _ l1 h1
  | ok m1 =>
      rw [h1] at h
      cases h2 : doMkdirFull fs mkF (dirname (get_episode_file_path fs ep).1) with
      | error l2 =>
          rw [h2] at h
          simp at h
          subst h
          exact doMkdirFull_error_elim fs mkF _ l2 h2
      | ok m2 =>
          rw [h2] at h
          by_cases ho : fs.openFails (get_episode_file_path fs ep).1 = true <;>
            simp [ho] at h

theorem writeStageFull_agrees (fs : FS) (ep : TVEpisode) (data : Dict)
    (logs0 : List LogEntry) :
    writeStageFull fs noMkdirFail ep data logs0 =
      (wrToFull (writeStage fs ep data logs0).1, (writeStage fs ep data logs0).2) := by
  simp only [writeStageFull, writeStage,
    doMkdirFull_ok fs noMkdirFail _ rfl]
  split <;> rfl

theorem write_ep_file_io_agrees (env : TvdbEnv) (fs : FS) (ep : TVEpisode) :
    write_ep_file_io env fs noMkdirFail ep =
      (wrToFull (write_ep_file env fs ep).1, (write_ep_file env fs ep).2) := by
  rcases hq : ep_data env ep with ⟨r, logs⟩
  cases r with
  | raised e => simp [write_ep_file_io, write_ep_file, hq, wrToFull]
  | retFalse => simp [write_ep_file_io, write_ep_file, hq, wrToFull]
  | retNone => simp [write_ep_file_io, write_ep_file, hq, wrToFull]
  | retData data =>
      by_cases hemp : data.isEmpty = true
      · simp [write_ep_file_io, write_ep_file, hq, hemp, wrToFull]
      · simp [write_ep_file_io, write_ep_file, hq, hemp, writeStageFull_agrees]

theorem ep_data_bad_retNone (env : TvdbEnv) (ep : TVEpisode) (myShow : TvdbShow)
    (e : EpData)
    (hl : env.lookup ep.showTvdbid (effLang ep.showLang) = ShowLookup.found myShow)
    (hm : e ∈ ep.main :: ep.relatedEps)
    (hbad : ∀ myEp, myShow.eps e.season e.episode = some myEp →
      myEp.episodename = none ∨ subFA ep.main.season myEp = none) :
    (ep_data env ep).1 = EpDataResult.retNone := by
  have hnone := epLoop_bad_none myShow ep.main.season _ [] e hm hbad
  rcases hq : epLoop myShow ep.main.season (ep.main :: ep.relatedEps) []
    with ⟨od, lg⟩
  rw [hq] at hnone
  simp only at hnone
  subst hnone
  simp [ep_data, hl, hq]

/-! The claims. -/

/-- C1, counterexample: the claim says no exception propagates to the caller
on lookup-not-found in the remote show database, but when the show lookup
raises `tvdb_shownotfound`, `_ep_data` re-raises it as a
`ShowNotFoundException`, which also propagates through `write_ep_file` (in
the restricted and in the full OSError-aware model alike): neither returns a
boolean/empty-result signal in that case. -/
theorem c1_counterexample :
    (ep_data envNotFound tv1).1 = EpDataResult.raised "Show not found" ∧
    (write_ep_file envNotFound fsPlain tv1).1 = WResult.raised "Show not found" ∧
    (write_ep_file_io envNotFound fsPlain noMkdirFail tv1).1 =
      WIOResult.raised "Show not found" := by
  decide

/-- C1, amended: each failure cause yields its boolean/empty-result signal —
a remote service error makes `_ep_data` return `False`; episode/season-level
lookup-not-found and missing required fields (after the season-0
substitution) make `_ep_data` return `None`; an `IOError` opening the
metadata file makes `write_ep_file` return `False` — and `_ep_data` raises
nothing in these cases.  The exceptions that DO propagate are exactly two:
show-level lookup-not-found, re-raised as `ShowNotFoundException` through
both functions, and a directory-creation failure, whose `OSError` escapes
the `except IOError` handler of `write_ep_file` (stated over the full model
`write_ep_file_io`, whose extra argument says which `os.makedirs` calls
fail). -/
theorem c1_amended_signals (env : TvdbEnv) (fs : FS) (mkF : String → Bool)
    (ep : TVEpisode) :
    ((∀ m, env.lookup ep.showTvdbid (effLang ep.showLang) ≠
        ShowLookup.shownotfound m) →
      ∀ e, (ep_data env ep).1 ≠ EpDataResult.raised e) ∧
    (∀ m, env.lookup ep.showTvdbid (effLang ep.showLang) =
        ShowLookup.tvdbError m →
      (ep_data env ep).1 = EpDataResult.retFalse) ∧
    (∀ myShow e,
      env.lookup ep.showTvdbid (effLang ep.showLang) = ShowLookup.found myShow →
      e ∈ ep.main :: ep.relatedEps → myShow.eps e.season e.episode = none →
      (ep_data env ep).1 = EpDataResult.retNone) ∧
    (∀ myShow e myEp,
      env.lookup ep.showTvdbid (effLang ep.showLang) = ShowLookup.found myShow →
      e ∈ ep.main :: ep.relatedEps → myShow.eps e.season e.episode = some myEp →
      (myEp.episodename = none ∨ subFA ep.main.season myEp = none) →
      (ep_data env ep).1 = EpDataResult.retNone) ∧
    (∀ d logs, ep_data env ep = (EpDataResult.retData d, logs) → d ≠ [] →
      fs.openFails (get_episode_file_path fs ep).1 = true →
      mkF (dirname (dirname (get_episode_file_path fs ep).1)) = false →
      mkF (dirname (get_episode_file_path fs ep).1) = false →
      (write_ep_file_io env fs mkF ep).1 = WIOResult.ret false) ∧
    ((∀ m, env.lookup ep.showTvdbid (effLang ep.showLang) ≠
        ShowLookup.shownotfound m) →
      ∀ e, (write_ep_file_io env fs mkF ep).1 ≠ WIOResult.raised e) ∧
    (∀ dir, (write_ep_file_io env fs mkF ep).1 = WIOResult.osError dir →
      fs.isdir dir = false ∧ mkF dir = true) := by
  have hed : (∀ m, env.lookup ep.showTvdbid (effLang ep.showLang) ≠
      ShowLookup.shownotfound m) →
      ∀ e, (ep_data env ep).1 ≠ EpDataResult.raised e := by
    intro h e
    cases hl : env.lookup ep.showTvdbid (effLang ep.showLang) with
    | shownotfound m => exact absurd hl (h m)
    | tvdbError m => simp [ep_data, hl]
    | found myShow =>
        simp only [ep_data, hl]
        rcases hq : epLoop myShow ep.main.season (ep.main :: ep.relatedEps) []
          with ⟨od, lg⟩
        cases od <;> simp
  refine ⟨hed, ?_, ?_, ?_, ?_, ?_, ?_⟩
  · intro m hl
    simp [ep_data, hl]
  · intro myShow e hl hm hE
    refine ep_data_bad_retNone env ep myShow e hl hm ?_
    intro myEp h2
    rw [hE] at h2
    simp at h2
  · intro myShow e myEp hl hm hE hbad
    refine ep_data_bad_retNone env ep myShow e hl hm ?_
    intro myEp2 h2
    rw [hE] at h2
    injection h2 with h3
    rw [← h3]
    exact hbad
  · intro d logs hq hne ho h1 h2
    have hemp : d.isEmpty = false := by
      cases d with
      | nil => exact absurd rfl hne
      | cons a l => rfl
    have hw : write_ep_file_io env fs mkF ep = writeStageFull fs mkF ep d logs := by
      simp [write_ep_file_io, hq, hemp]
    rw [hw]
    exact writeStageFull_openFails_false fs mkF ep d logs ho h1 h2
  · intro h e
    rcases hq : ep_data env ep with ⟨r, logs⟩
    have hr : r ≠ EpDataResult.raised e := by
      have h5 := hed h e
      rw [hq] at h5
      exact h5
    cases r with
    | raised m =>
        simp only [write_ep_file_io, hq]
        simpa using hr
    | retFalse => simp [write_ep_file_io, hq]
    | retNone => simp [write_ep_file_io, hq]
    | retData data =>
        simp only [write_ep_file_io, hq]
        by_cases hemp : data.isEmpty = true
        · rw [if_pos hemp]; simp
        · rw [if_neg hemp]
          exact writeStageFull_ne_raised fs mkF ep data logs e
  · intro dir h
    rcases hq : ep_data env ep with ⟨r, logs⟩
    cases r with
    | raised m => simp [write_ep_file_io, hq] at h
    | retFalse => simp [write_ep_file_io, hq] at h
    | retNone => simp [write_ep_file_io, hq] at h
    | retData data =>
        simp only [write_ep_file_io, hq] at h
        by_cases hemp : data.isEmpty = true
        · rw [if_pos hemp] at h; simp at h
        · rw [if_neg hemp] at h
          exact writeStageFull_osError_elim fs mkF ep data logs dir h

/-- C1, amended, witness: the falsy signals on concrete runs — remote error,
episode-level not-found, missing required field, `IOError` on open — plus the
no-raise conclusion in a non-`shownotfound` environment and the `OSError`
characterization on a run whose `os.makedirs` fails. -/
theorem c1_amended_signals_witness :
    (ep_data envErr tv1).1 = EpDataResult.retFalse ∧
    (ep_data envFound tvEpNotFound).1 = EpDataResult.retNone ∧
    (ep_data envFound tvNoName).1 = EpDataResult.retNone ∧
    (write_ep_file_io envFound fsOpenFail noMkdirFail tvMulti).1 =
      WIOResult.ret false ∧
    (write_ep_file_io envErr fsPlain noMkdirFail tv1).1 ≠ WIOResult.raised "x" ∧
    (fsPlain.isdir "/tv/Season 1/@eaDir" = false ∧
      allMkdirFail "/tv/Season 1/@eaDir" = true) :=
  ⟨(c1_amended_signals envErr fsPlain noMkdirFail tv1).2.1 "connection failed" rfl,
   (c1_amended_signals envFound fsPlain noMkdirFail tvEpNotFound).2.2.1
     show1 edNF rfl (by decide) (by decide),
   (c1_amended_signals envFound fsPlain noMkdirFail tvNoName).2.2.2.1
     show1 ed3 epRecNoName rfl (by decide) (by decide) (Or.inl rfl),
   (c1_amended_signals envFound fsOpenFail noMkdirFail tvMulti).2.2.2.2.1
     dictMulti [] (by decide) (by decide) rfl rfl rfl,
   (c1_amended_signals envErr fsPlain noMkdirFail tv1).2.2.2.2.2.1
     (fun m hm => by simp [envErr] at hm) "x",
   (c1_amended_signals envFound fsPlain allMkdirFail tvMulti).2.2.2.2.2.2
     "/tv/Season 1/@eaDir" (by decide)⟩

/-- C2: when the episode location is an existing file,
`get_episode_file_path` returns the join of the directory of the location,
the literal `@eaDir`, the base name of the location and the literal
`SYNOVIDEO_TV_EPISODE`, and the result depends only on the location. -/
theorem c2_episode_file_path (fs fs2 : FS) (ep ep2 : TVEpisode)
    (h : fs.isfile ep.location = true) (h2 : fs2.isfile ep2.location = true)
    (hl : ep.location = ep2.location) :
    (get_episode_file_path fs ep).1 =
      pjoin (dirname ep.location)
        ["@eaDir", basename ep.location, "SYNOVIDEO_TV_EPISODE"] ∧
    (get_episode_file_path fs ep).1 = (get_episode_file_path fs2 ep2).1 := by
  constructor
  · simp [get_episode_file_path, h]
  · rw [hl] at h
    simp [get_episode_file_path, h, h2, hl]

/-- C2, witness: the metadata path of a concrete episode file, evaluated. -/
theorem c2_episode_file_path_witness :
    (get_episode_file_path fsPlain tv1).1 =
      "/tv/Season 1/@eaDir/show - 1x01.mkv/SYNOVIDEO_TV_EPISODE" ∧
    ((get_episode_file_path fsPlain tv1).1 =
      pjoin (dirname tv1.location)
        ["@eaDir", basename tv1.location, "SYNOVIDEO_TV_EPISODE"] ∧
     (get_episode_file_path fsPlain tv1).1 =
      (get_episode_file_path fsOpenFail tv1).1) :=
  ⟨by decide, c2_episode_file_path fsPlain fsOpenFail tv1 tv1 rfl rfl rfl⟩

/-- C3: when the episode location is an existing file,
`get_episode_thumb_path` returns the same derivation as the metadata file
path but ending in `SYNOVIDEO_VIDEO_SCREENSHOT.jpg`. -/
theorem c3_episode_thumb_path (fs : FS) (ep : TVEpisode)
    (h : fs.isfile ep.location = true) :
    get_episode_thumb_path fs ep =
      some (pjoin (dirname ep.location)
        ["@eaDir", basename ep.location, "SYNOVIDEO_VIDEO_SCREENSHOT.jpg"]) ∧
    (get_episode_file_path fs ep).1 =
      pjoin (dirname ep.location)
        ["@eaDir", basename ep.location, "SYNOVIDEO_TV_EPISODE"] := by
  constructor
  · simp [get_episode_thumb_path, h]
  · simp [get_episode_file_path, h]

/-- C3, witness: the thumbnail path of a concrete episode file, evaluated. -/
theorem c3_episode_thumb_path_witness :
    get_episode_thumb_path fsPlain tv1 =
      some "/tv/Season 1/@eaDir/show - 1x01.mkv/SYNOVIDEO_VIDEO_SCREENSHOT.jpg" ∧
    get_episode_thumb_path fsPlain tv1 =
      some (pjoin (dirname tv1.location)
        ["@eaDir", basename tv1.location, "SYNOVIDEO_VIDEO_SCREENSHOT.jpg"]) :=
  ⟨by decide, (c3_episode_thumb_path fsPlain tv1 rfl).1⟩

/-- C8: when the episode location is not an existing file, the two path
derivations return different sentinels: `get_episode_thumb_path` returns
`None` while `get_episode_file_path` returns the empty string. -/
theorem c8_sentinel_values (fs : FS) (ep : TVEpisode)
    (h : fs.isfile ep.location = false) :
    get_episode_thumb_path fs ep = none ∧
    (get_episode_file_path fs ep).1 = "" := by
  constructor
  · simp [get_episode_thumb_path, h]
  · simp [get_episode_file_path, h]

/-- C8, witness: the two sentinels on a concrete missing location. -/
theorem c8_sentinel_values_witness :
    get_episode_thumb_path fsNoFile tv1 = none ∧
    (get_episode_file_path fsNoFile tv1).1 = "" :=
  c8_sentinel_values fsNoFile tv1 rfl

/-- C4: when the remote record of any episode to write has `episodename`
equal to `None`, or `firstaired` equal to `None` after the season-0
substitution, `_ep_data` returns `None` and `write_ep_file` returns `False`
having performed no filesystem effect. -/
theorem c4_required_fields (env : TvdbEnv) (fs : FS) (ep : TVEpisode)
    (myShow : TvdbShow) (e : EpData) (myEp : TvdbEp)
    (hl : env.lookup ep.showTvdbid (effLang ep.showLang) = ShowLookup.found myShow)
    (hm : e ∈ ep.main :: ep.relatedEps)
    (he : myShow.eps e.season e.episode = some myEp)
    (hbad : myEp.episodename = none ∨ subFA ep.main.season myEp = none) :
    (ep_data env ep).1 = EpDataResult.retNone ∧
    (write_ep_file env fs ep).1 = WResult.ret false ∧
    (write_ep_file env fs ep).2.1 = [] := by
  have hnone : (epLoop myShow ep.main.season (ep.main :: ep.relatedEps) []).1 = none := by
    refine epLoop_bad_none myShow ep.main.season _ [] e hm ?_
    intro myEp2 hE2
    rw [he] at hE2
    injection hE2 with h3
    rw [← h3]
    exact hbad
  rcases hq : epLoop myShow ep.main.season (ep.main :: ep.relatedEps) []
    with ⟨od, lg⟩
  rw [hq] at hnone
  simp only at hnone
  subst hnone
  have hed : ep_data env ep = (EpDataResult.retNone, lg) := by
    simp [ep_data, hl, hq]
  refine ⟨by rw [hed], ?_, ?_⟩ <;> simp [write_ep_file, hed]

/-- C4, witness: a concrete episode whose remote record lacks the episode
name is skipped and nothing is written. -/
theorem c4_required_fields_witness :
    (ep_data envFound tvNoName).1 = EpDataResult.retNone ∧
    (write_ep_file envFound fsPlain tvNoName).1 = WResult.ret false :=
  ⟨(c4_required_fields envFound fsPlain tvNoName show1 ed3 epRecNoName
      rfl (by decide) (by decide) (Or.inl rfl)).1,
   (c4_required_fields envFound fsPlain tvNoName show1 ed3 epRecNoName
      rfl (by decide) (by decide) (Or.inl rfl)).2.1⟩

/-- C5: a `tvdb_error` on the show lookup is logged at ERROR level and makes
`_ep_data` return `False` (so `write_ep_file` returns `False` with no
filesystem effect); an `IOError` on opening the metadata file is logged at
ERROR level and makes `write_ep_file` return `False` with no file written.
Neither path retries: the single run ends with the `False` return, and
neither raises. -/
theorem c5_nonfatal_outcomes :
    (∀ (env : TvdbEnv) (fs : FS) (ep : TVEpisode) (m : String),
      env.lookup ep.showTvdbid (effLang ep.showLang) = ShowLookup.tvdbError m →
      (ep_data env ep).1 = EpDataResult.retFalse ∧
      tvdbErrLog m ∈ (ep_data env ep).2 ∧
      (tvdbErrLog m).level = LogLevel.error ∧
      (write_ep_file env fs ep).1 = WResult.ret false ∧
      (write_ep_file env fs ep).2.1 = []) ∧
    (∀ (env : TvdbEnv) (fs : FS) (ep : TVEpisode) (d : Dict) (logs : List LogEntry),
      ep_data env ep = (EpDataResult.retData d, logs) → d ≠ [] →
      fs.openFails (get_episode_file_path fs ep).1 = true →
      (write_ep_file env fs ep).1 = WResult.ret false ∧
      ioErrLog (get_episode_file_path fs ep).1 ∈ (write_ep_file env fs ep).2.2 ∧
      (ioErrLog (get_episode_file_path fs ep).1).level = LogLevel.error ∧
      (∀ p c, Eff.write p c ∉ (write_ep_file env fs ep).2.1)) := by
  constructor
  · intro env fs ep m hl
    have hed : ep_data env ep = (EpDataResult.retFalse, [tvdbErrLog m]) := by
      simp [ep_data, hl]
    refine ⟨by rw [hed], by rw [hed]; simp, rfl, ?_, ?_⟩ <;>
      simp [write_ep_file, hed]
  · intro env fs ep d logs hq hne ho
    have hemp : d.isEmpty = false := by
      cases d with
      | nil => exact absurd rfl hne
      | cons a l => rfl
    have hw : write_ep_file env fs ep = writeStage fs ep d logs := by
      simp [write_ep_file, hq, hemp]
    rcases writeStage_openFails fs ep d logs ho with ⟨h1, h2, h3⟩
    exact ⟨by rw [hw]; exact h1, by rw [hw]; exact h2, rfl,
      fun p c => by rw [hw]; exact h3 p c⟩

/-- C5, witness: the two concrete non-fatal outcomes, evaluated. -/
theorem c5_nonfatal_outcomes_witness :
    (ep_data envErr tv1).1 = EpDataResult.retFalse ∧
    (write_ep_file envFound fsOpenFail tvMulti).1 = WResult.ret false :=
  ⟨(c5_nonfatal_outcomes.1 envErr fsPlain tv1 "connection failed" rfl).1,
   (c5_nonfatal_outcomes.2 envFound fsOpenFail tvMulti dictMulti []
      (by decide) (by decide) rfl).1⟩

/-- C6: every key of a dict produced by `_ep_data` is one of the ten listed
keys, and when `write_ep_file` succeeds it writes exactly the JSON
serialization of that dict to the derived metadata path. -/
theorem c6_flat_mapping (env : TvdbEnv) (fs : FS) (ep : TVEpisode) (d : Dict)
    (logs : List LogEntry)
    (h : ep_data env ep = (EpDataResult.retData d, logs)) :
    (∀ k ∈ keys d, k ∈ allKeys) ∧
    ((write_ep_file env fs ep).1 = WResult.ret true →
      Eff.write (get_episode_file_path fs ep).1 (jsonDump d) ∈
        (write_ep_file env fs ep).2.1) := by
  constructor
  · intro k hk
    cases hl : env.lookup ep.showTvdbid (effLang ep.showLang) with
    | shownotfound m => simp [ep_data, hl] at h
    | tvdbError m => simp [ep_data, hl] at h
    | found myShow =>
        simp only [ep_data, hl] at h
        rcases hq : epLoop myShow ep.main.season (ep.main :: ep.relatedEps) []
          with ⟨od, lg⟩
        rw [hq] at h
        cases od with
        | none => simp at h
        | some d0 =>
            simp only [Prod.mk.injEq, EpDataResult.retData.injEq] at h
            rcases epLoop_keys myShow ep.main.season _ [] d0 lg hq k
              (h.1 ▸ hk) with h1 | h2
            · exact h1
            · simp [keys] at h2
  · intro htrue
    cases hd : d.isEmpty with
    | true =>
        rw [show write_ep_file env fs ep = (WResult.ret false, [], logs) by
          simp [write_ep_file, h, hd]] at htrue
        simp at htrue
    | false =>
        have hw : write_ep_file env fs ep = writeStage fs ep d logs := by
          simp [write_ep_file, h, hd]
        rw [hw] at htrue ⊢
        exact writeStage_true_write_mem fs ep d logs htrue

/-- C6, witness: on a concrete successful run every produced key is among the
ten, and the JSON dump of the produced dict is written to the derived path. -/
theorem c6_flat_mapping_witness :
    "title" ∈ allKeys ∧
    Eff.write (get_episode_file_path fsPlain tvMulti).1 (jsonDump dictMulti) ∈
      (write_ep_file envFound fsPlain tvMulti).2.1 :=
  ⟨(c6_flat_mapping envFound fsPlain tvMulti dictMulti [] (by decide)).1
     "title" (by decide),
   (c6_flat_mapping envFound fsPlain tvMulti dictMulti [] (by decide)).2
     (by decide)⟩

/-- C7: whenever `_ep_data` produces a falsy value (`False`, `None` or the
empty dict), `write_ep_file` returns `False` with an empty effect trace: no
directory is created and no file is opened, so the filesystem is unchanged. -/
theorem c7_falsy_data_no_write (env : TvdbEnv) (fs : FS) (ep : TVEpisode)
    (h : (ep_data env ep).1 = EpDataResult.retFalse ∨
      (ep_data env ep).1 = EpDataResult.retNone ∨
      (ep_data env ep).1 = EpDataResult.retData []) :
    (write_ep_file env fs ep).1 = WResult.ret false ∧
    (write_ep_file env fs ep).2.1 = [] := by
  rcases hq : ep_data env ep with ⟨r, logs⟩
  rw [hq] at h
  simp only at h
  rcases h with rfl | rfl | rfl <;>
    constructor <;> simp [write_ep_file, hq]

/-- C7, witness: a concrete falsy `_ep_data` run leaves the trace empty. -/
theorem c7_falsy_data_no_write_witness :
    (write_ep_file envErr fsPlain tv1).1 = WResult.ret false ∧
    (write_ep_file envErr fsPlain tv1).2.1 = [] :=
  c7_falsy_data_no_write envErr fsPlain tv1 (Or.inl (by decide))

/-- C9: when the record has no air date, the substitution yields
`str(datetime.date.fromordinal(1))`, the string 0001-01-01, exactly when the
PRIMARY episode (`ep_obj.season`) is a special: such specials pass the
required-field check and are not skipped, while with a non-zero primary
season the same record is skipped, regardless of the season of the episode
being processed. -/
theorem c9_season_zero_substitution :
    (∀ (s : Int) (myEp : TvdbEp), myEp.firstaired = none → s = 0 →
      subFA s myEp = some "0001-01-01") ∧
    (∀ (s : Int) (myEp : TvdbEp), myEp.firstaired = none → s ≠ 0 →
      subFA s myEp = none) ∧
    (∀ (myShow : TvdbShow) (cur : EpData) (myEp : TvdbEp) (data : Dict)
        (n : String),
      myShow.eps cur.season cur.episode = some myEp →
      myEp.firstaired = none → myEp.episodename = some n →
      (epLoop myShow 0 [cur] data).1 ≠ none) ∧
    (∀ (myShow : TvdbShow) (s : Int) (cur : EpData) (myEp : TvdbEp)
        (data : Dict),
      myShow.eps cur.season cur.episode = some myEp →
      myEp.firstaired = none → s ≠ 0 →
      (epLoop myShow s [cur] data).1 = none) := by
  refine ⟨?_, ?_, ?_, ?_⟩
  · intro s myEp hfa hs
    rw [subFA, if_pos ⟨hfa, hs⟩]
    decide
  · intro s myEp hfa hs
    rw [subFA, if_neg (fun hand => hs hand.2)]
    exact hfa
  · intro myShow cur myEp data n hE hfa hn
    have hsub : subFA 0 myEp = some (strDate date_fromordinal_1) := by
      rw [subFA, if_pos ⟨hfa, rfl⟩]
    simp only [epLoop, hE]
    rw [if_neg (by simp [hn, hsub])]
    simp [epLoop]
  · intro myShow s cur myEp data hE hfa hs
    have hsub : subFA s myEp = none := by
      rw [subFA, if_neg (fun hand => hs hand.2)]
      exact hfa
    simp only [epLoop, hE]
    rw [if_pos (Or.inr hsub)]

/-- C9, witness: the four parts of the substitution behaviour on a concrete
special whose record has no air date. -/
theorem c9_season_zero_substitution_witness :
    subFA 0 epRecNoAir = some "0001-01-01" ∧
    subFA 1 epRecNoAir = none ∧
    (epLoop showSp 0 [edSp] []).1 ≠ none ∧
    (epLoop showSp 1 [edSp] []).1 = none :=
  ⟨c9_season_zero_substitution.1 0 epRecNoAir rfl rfl,
   c9_season_zero_substitution.2.1 1 epRecNoAir rfl (by decide),
   c9_season_zero_substitution.2.2.1 showSp edSp epRecNoAir [] "Special"
     (by decide) rfl rfl,
   c9_season_zero_substitution.2.2.2 showSp 1 edSp epRecNoAir []
     (by decide) rfl (by decide)⟩

/-- C10, counterexample: on a two-episode file the shared dict does NOT leave
`summary` reflecting only the last related episode processed: the last
episode (1x2, `ed2`) has no description, so `summary` keeps the first
episode's description while `tagline` was overwritten with the last
episode's name. -/
theorem c10_counterexample :
    (ep_data envFound tvMulti).1 = EpDataResult.retData dictMulti ∧
    tvMulti.relatedEps = [ed2] ∧
    ed2.description = none ∧
    ed1.description = some "first summary" ∧
    dget dictMulti "summary" = some (JVal.jstr "first summary") ∧
    dget dictMulti "tagline" = some (JVal.jstr "Part 2") := by
  decide

/-- C10, amended: one shared dict is threaded through all episodes of
`[ep_obj] + relatedEps`, and each iteration overwrites the unconditionally
written keys, so `tagline`, `season` and `episode` of the returned mapping
always come from the last episode processed — earlier episodes' values for
those keys are lost — while `summary` comes from the last episode only when
that episode has a description (otherwise an earlier value survives). -/
theorem c10_amended_last_episode (myShow : TvdbShow) (s : Int)
    (pre : List EpData) (lastEp : EpData) (data d : Dict)
    (logs : List LogEntry)
    (h : epLoop myShow s (pre ++ [lastEp]) data = (some d, logs)) :
    dget d "tagline" = some (JVal.jstr lastEp.name) ∧
    dget d "season" = some (JVal.jstr (toString lastEp.season)) ∧
    dget d "episode" = some (JVal.jstr (toString lastEp.episode)) ∧
    (∀ t, lastEp.description = some t →
      dget d "summary" = some (JVal.jstr t)) :=
  epLoop_append_last myShow s pre lastEp data d logs h

/-- C10, amended, witness: on the concrete two-episode run the returned
`tagline`, `season` and `episode` are those of the last episode, and on a
single-episode run whose episode has a description the `summary` is that
description. -/
theorem c10_amended_last_episode_witness :
    dget dictMulti "tagline" = some (JVal.jstr ed2.name) ∧
    dget dictMulti "season" = some (JVal.jstr (toString ed2.season)) ∧
    dget dictMulti "episode" = some (JVal.jstr (toString ed2.episode)) ∧
    dget dictSingle "summary" = some (JVal.jstr "first summary") :=
  ⟨(c10_amended_last_episode show1 1 [ed1] ed2 [] dictMulti [] (by decide)).1,
   (c10_amended_last_episode show1 1 [ed1] ed2 [] dictMulti [] (by decide)).2.1,
   (c10_amended_last_episode show1 1 [ed1] ed2 [] dictMulti [] (by decide)).2.2.1,
   (c10_amended_last_episode show1 1 [] ed1 [] dictSingle [] (by decide)).2.2.2
     "first summary" rfl⟩

end Synology
